import Mathlib

/-!
Verification of the Order Resolution & Wallet Reconciliation subsystem of a
Polymarket trading tool.  The Python source is shallowly embedded:

* Python strings are modelled as `List Char` (`PStr`): the Lean `String`
  primitives do not reduce in the kernel, while list recursion does.  The
  helpers `pLower`, `pUpper`, `pTrim`, `pStarts`, `pIsDigit` mirror
  `str.lower()`, `str.upper()`, `str.strip()`, `str.startswith` and
  `str.isdigit()` for the ASCII data these code paths handle.
* Python numbers reaching `float(...)` are modelled as `ℚ`.
* `None`-able values are `Option`; Python truthiness of a value `x`
  (`if not x:`) is modelled by explicit falsiness predicates
  (`none`, empty string, zero).
* Network calls are modelled by environment records holding the response the
  call would produce; an emitted `Effect` trace records which side-effecting
  calls (market lookup, exchange-client creation, order posting) happen.
* `json.loads` (an external library call) is modelled by carrying the decoded
  value alongside the string form in `JField`: `jstr (some l)` is a JSON
  string decoding to the list `l`, `jstr none` a string that does not decode
  to a list (either raising or yielding a non-list; both end the resolution
  with no token, which is what the embedded `Option` result captures).
-/

abbrev PStr := List Char

deriving instance DecidableEq for Except

/-- Coerce a Lean string literal to the `List Char` model of Python strings. -/
def pstr (s : String) : PStr := s.data

/-- `str.lower()` (ASCII). -/
def pLower (s : PStr) : PStr := s.map Char.toLower

/-- `str.upper()` (ASCII). -/
def pUpper (s : PStr) : PStr := s.map Char.toUpper

/-- `str.strip()`: drop leading and trailing whitespace. -/
def pTrim (s : PStr) : PStr :=
  ((s.dropWhile Char.isWhitespace).reverse.dropWhile Char.isWhitespace).reverse

/-- `s.startswith(p)`. -/
def pStarts : PStr → PStr → Bool
  | _, [] => true
  | [], _ :: _ => false
  | c :: s, d :: p => c == d && pStarts s p

/-- `str.isdigit()`: non-empty and all characters are digits. -/
def pIsDigit (s : PStr) : Bool := !s.isEmpty && s.all Char.isDigit

/-- Python truthiness of an optional string: `None` and `""` are falsy. -/
def truthyS : Option PStr → Bool
  | none => false
  | some s => !s.isEmpty

/-- Python truthiness test `if not x:` on an optional numeric field:
`None` and `0` are falsy. -/
def falsyQ : Option ℚ → Bool
  | none => true
  | some x => if x = 0 then true else false

/-- `if not token_id:` — `None` and the empty string are falsy. -/
def tokenFalsy : Option PStr → Bool
  | none => true
  | some s => s.isEmpty

/-- A hex-digit character, as accepted by `re.sub(r'[^0-9a-fA-F]', '', pk)`. -/
def isHexChar (c : Char) : Bool :=
  c.isDigit || ('a' ≤ c && c ≤ 'f') || ('A' ≤ c && c ≤ 'F')

/-- `if pk.lower().startswith("0x"): pk = pk[2:]` followed by
`pk = re.sub(r'[^0-9a-fA-F]', '', pk)` — the private-key cleaning shared by
the order, balance and credential endpoints. -/
def cleanKey (pk : PStr) : PStr :=
  (if pStarts (pLower pk) (pstr ("0x")) then pk.drop 2 else pk).filter isHexChar

/-- The custodial ("magic") wallet test
`funder.lower().startswith("0x9402")`. -/
def magic (f : PStr) : Bool := pStarts (pLower f) (pstr ("0x9402"))

/-! ## MarketService (src/FKPolySDK/src/market_service.py, identical copy
created as services/market_service.py by src/static/create_services.py) -/

/-- A market field (`clobTokenIds` / `outcomes`) as returned by the
market-metadata API: a native list, a JSON-encoded string (carried together
with its decoded form; `jstr none` = does not decode to a list), or absent. -/
inductive JField
  | jlist (l : List PStr)
  | jstr (dec : Option (List PStr))
  | jabsent
deriving DecidableEq

/-- The `isinstance(x, str) → json.loads` / `isinstance(x, list)` dispatch in
`resolve_token_id`: the decoded list, if the field ends up being a list. -/
def decodeJ : JField → Option (List PStr)
  | .jlist l => some l
  | .jstr d => d
  | .jabsent => none

/-- A market record as consumed by `resolve_token_id`
(`m.get("clobTokenIds")`, `m.get("outcomes")`). -/
structure MarketRec where
  clobTokenIds : JField
  outcomes : JField
deriving DecidableEq

/-- `str(o).strip().lower()` — the normalisation applied to both sides of the
outcome-label comparison. -/
def pNorm (s : PStr) : PStr := pLower (pTrim s)

/-- The `for i, o in enumerate(outs)` scan: first index whose normalised
label equals the normalised requested outcome. -/
def scanFrom (o : PStr) (i : Nat) : List PStr → Option Nat
  | [] => none
  | x :: xs => if pNorm x = pNorm o then some i else scanFrom o (i + 1) xs

/-- First matching label index (`break` on first hit). -/
def findLabelIdx (outs : List PStr) (o : PStr) : Option Nat := scanFrom o 0 outs

/-- Python list indexing `tokens[idx]` for an `int` index: non-negative
indices address from the front, negative indices in `[-len, 0)` address from
the back, and anything below `-len` raises `IndexError` (modelled as `none`:
the exception propagates and no token is produced). -/
def pyIndex (l : List PStr) (i : Int) : Option PStr :=
  if 0 ≤ i then l.get? i.toNat
  else if -(l.length : Int) ≤ i then l.get? (l.length - (-i).toNat)
  else none

namespace MarketService

/-- `MarketService.resolve_token_id(slug, outcome_index, outcome)`.
The market record argument is the result of `get_market_by_slug(slug)`
(`none` when the HTTP call fails, returns non-200, or returns an empty or
non-list body).  All failure modes of the Python function (returning `None`
or raising) are collapsed into `none`: in every caller an exception is
caught and turned into the same "no token" error path. -/
def resolve_token_id (m? : Option MarketRec) (outcome_index : Option Int)
    (outcome : Option PStr) : Option PStr :=
  match m? with
  | none => none
  | some m =>
    let idx : Option Int :=
      match outcome_index with
      | some i => some i
      | none =>
        match decodeJ m.outcomes, outcome with
        | some outs, some o => (findLabelIdx outs o).map (fun n => (n : Int))
        | _, _ => none
    match idx with
    | none => none
    | some i =>
      match decodeJ m.clobTokenIds with
      | none => none
      | some tokens =>
        if i ≥ (tokens.length : Int) then none else pyIndex tokens i

/-- The token-lookup phase of `resolve_token_id` for an already-resolved
index: decode `clobTokenIds`, reject `idx >= len(tokens)`, else index. -/
def tokenAt (m : MarketRec) (i : Int) : Option PStr :=
  match decodeJ m.clobTokenIds with
  | none => none
  | some tokens =>
    if i ≥ (tokens.length : Int) then none else pyIndex tokens i

end MarketService

/-! ## TradeService (src/services/trade_service.py) -/

/-- Order side after `BUY if side.upper() == "BUY" else SELL`. -/
inductive Side
  | buy
  | sell
deriving DecidableEq

/-- The single outbound order call: a fill-or-kill market order
(`MarketOrderArgs` + `post_order(..., OrderType.FOK)`) or a
good-till-cancelled limit order (`OrderArgs` + `post_order(..., OrderType.GTC)`). -/
inductive Submitted
  | marketFOK (token : PStr) (amount : ℚ) (side : Side)
  | limitGTC (token : PStr) (price : ℚ) (size : ℚ) (side : Side)
deriving DecidableEq

namespace TradeService

/-- The `ValueError`s raised by `TradeService.place_order`. -/
inductive TErr
  | missingBuyAmount
  | missingSellSize
  | missingLimitSize
deriving DecidableEq

/-- `TradeService.place_order(client, token_id, side, size, price,
usdc_amount)`: which order (if any) is handed to the venue.  Mirrors the
source exactly: market path when `price is None`; `if not usdc_amount` /
`if not size` truthiness checks (so `None` and `0` are rejected, negative
values are not). -/
def place_order (token_id : PStr) (side : PStr) (size price usdc_amount : Option ℚ) :
    Except TErr Submitted :=
  let sgn : Side := if pUpper side = pstr ("BUY") then .buy else .sell
  match price with
  | none =>
    match sgn with
    | .buy =>
      if falsyQ usdc_amount then .error .missingBuyAmount
      else .ok (.marketFOK token_id (usdc_amount.getD 0) .buy)
    | .sell =>
      if falsyQ size then .error .missingSellSize
      else .ok (.marketFOK token_id (size.getD 0) .sell)
  | some p =>
    if falsyQ size then .error .missingLimitSize
    else .ok (.limitGTC token_id p (size.getD 0) sgn)

end TradeService

/-! ## Side-effect trace and environment for the Flask routes (src/app.py) -/

/-- Network side effects a route can perform on its trade path:
the market-metadata lookup inside `resolve_token_id`, the creation of the
authenticated exchange client (`TradeService.get_client`, recording the
cleaned key and the wallet mode it is configured with), and the outbound
order call. -/
inductive Effect
  | marketLookup (slug : PStr)
  | clientCreated (pk : PStr) (funder : Option PStr) (sig : Option Int)
  | orderPosted (o : Submitted)
deriving DecidableEq

/-- Is the effect a market-metadata lookup? -/
def isLookup : Effect → Bool
  | .marketLookup _ => true
  | _ => false

/-- The stored settings row (`db.get_settings()`). -/
structure Settings where
  private_key : Option PStr
  funder : Option PStr
  signature_type : Option Int
deriving DecidableEq

/-- External-world responses for one request: the settings store, the
market-metadata lookup result (`none` = HTTP failure, non-200, empty array
or non-list body), the `to_checksum_address(funder)` result (`none` = the
call raised, in which case the raw string is kept), and whether
`TradeService.get_client` succeeds. -/
structure Env where
  settings : Option Settings
  market : Option MarketRec
  checksummed : Option PStr
  clientOk : Bool

/-- Route-level error responses (each a distinct `jsonify(...error...)`). -/
inductive RouteErr
  | invalidInput
  | invalidSide
  | noSettings
  | missingCreds
  | missingKey
  | tokenNotFound
  | tokenNotResolved
  | clientFailed
  | orderErr (e : TradeService.TErr)
deriving DecidableEq

/-- Does the route answer with an error payload? -/
def isErrR (r : Except RouteErr Submitted) : Bool :=
  match r with
  | .error _ => true
  | .ok _ => false

/-- `if not pk:` on the stored private key. -/
def pkFalsy : Option PStr → Bool
  | none => true
  | some s => s.isEmpty

/-! ### `/api/place-order` (app.py, `place_order`) -/

/-- The request body of `/api/place-order`. -/
structure OrderReq where
  slug : Option PStr
  outcome : Option PStr
  side : Option PStr
  order_type : Option PStr
  price : Option ℚ
  size : Option ℚ
  usdc_amount : Option ℚ
deriving DecidableEq

/-- `slug = (data.get("slug") or "").strip()`. -/
def placeSlug (req : OrderReq) : PStr := pTrim (req.slug.getD [])

/-- `side = (data.get("side") or "").strip().upper()`. -/
def placeSide (req : OrderReq) : PStr := pUpper (pTrim (req.side.getD []))

/-- `slug.isdigit() and len(slug) > 10` — the literal-token-id shortcut. -/
def placeShortcut (req : OrderReq) : Bool :=
  pIsDigit (placeSlug req) && decide ((placeSlug req).length > 10)

/-- The token id `place_order` ends up with: the slug itself under the
numeric shortcut, otherwise `MarketService.resolve_token_id(slug,
outcome=outcome)` (note: no explicit index is passed on this path). -/
def placeToken (env : Env) (req : OrderReq) : Option PStr :=
  if placeShortcut req then some (placeSlug req)
  else MarketService.resolve_token_id env.market none req.outcome

/-- The lookup effects of the resolution step: none under the shortcut, one
metadata query otherwise. -/
def placeResolveEffs (req : OrderReq) : List Effect :=
  if placeShortcut req then [] else [Effect.marketLookup (placeSlug req)]

/-- The funder/signature-type pair `place_order` configures the client with:
checksum the stored funder (keeping the raw string if checksumming raises),
force signature type 2 for the `0x9402` custodial pattern, and finally
`int(sig_type or 0)`. -/
def placeWalletMode (env : Env) (s : Settings) : Option PStr × Int :=
  if truthyS s.funder then
    let f := env.checksummed.getD (s.funder.getD [])
    if magic f then (some f, 2) else (some f, s.signature_type.getD 0)
  else (none, s.signature_type.getD 0)

/-- The client-and-submit tail shared by the branches of `place_order`. -/
def placeSubmit (env : Env) (s : Settings) (req : OrderReq) (t : PStr) :
    Except RouteErr Submitted × List Effect :=
  let wm := placeWalletMode env s
  let ceff := Effect.clientCreated (cleanKey (s.private_key.getD [])) wm.1 (some wm.2)
  if env.clientOk then
    match TradeService.place_order t (placeSide req) req.size req.price req.usdc_amount with
    | .error e => (.error (.orderErr e), placeResolveEffs req ++ [ceff])
    | .ok o => (.ok o, placeResolveEffs req ++ [ceff, .orderPosted o])
  else (.error .clientFailed, placeResolveEffs req ++ [ceff])

/-- The `/api/place-order` route: result plus the trace of trade-path side
effects.  The request's `order_type` field is read into a local variable by
the source and never used afterwards; accordingly no step below consults it. -/
def app_place_order (env : Env) (req : OrderReq) :
    Except RouteErr Submitted × List Effect :=
  if placeSide req = pstr ("BUY") ∨ placeSide req = pstr ("SELL") then
    match env.settings with
    | none => (.error .noSettings, [])
    | some s =>
      if pkFalsy s.private_key then (.error .missingKey, [])
      else
        if tokenFalsy (placeToken env req) then
          (.error .tokenNotResolved, placeResolveEffs req)
        else placeSubmit env s req ((placeToken env req).getD [])
  else (.error .invalidSide, [])

/-! ### `/api/repeat-order` (app.py, `repeat_order`) -/

/-- The request body of `/api/repeat-order` (`usdc_size` is the notional
field on this endpoint). -/
structure RepeatReq where
  slug : Option PStr
  outcome : Option PStr
  outcome_index : Option Int
  side : Option PStr
  price : Option ℚ
  size : Option ℚ
  usdc_size : Option ℚ
deriving DecidableEq

/-- `slug = (data.get("slug") or "").strip()`. -/
def repeatSlug (req : RepeatReq) : PStr := pTrim (req.slug.getD [])

/-- `side = (data.get("side") or "").strip()` (lower-cased only for the
validity check; passed through unchanged to `TradeService.place_order`). -/
def repeatSide (req : RepeatReq) : PStr := pTrim (req.side.getD [])

/-- `MarketService.resolve_token_id(slug, outcome_index, outcome)` — the
repeat endpoint has no numeric-slug shortcut. -/
def repeatToken (env : Env) (req : RepeatReq) : Option PStr :=
  MarketService.resolve_token_id env.market req.outcome_index req.outcome

/-- The funder/signature-type pair `repeat_order` configures the client
with (no `int(...)` coercion on this endpoint; the stored value is passed
through unless the `0x9402` override fires). -/
def repeatWalletMode (env : Env) (s : Settings) : Option PStr × Option Int :=
  if truthyS s.funder then
    let f := env.checksummed.getD (s.funder.getD [])
    if magic f then (some f, some 2) else (some f, s.signature_type)
  else (s.funder, s.signature_type)

/-- The `/api/repeat-order` route: result plus trade-path side effects.
Token resolution always goes through the market-metadata lookup here. -/
def app_repeat_order (env : Env) (req : RepeatReq) :
    Except RouteErr Submitted × List Effect :=
  if !(repeatSlug req).isEmpty
      && (pLower (repeatSide req) == pstr ("buy")
          || pLower (repeatSide req) == pstr ("sell")) then
    match env.settings with
    | none => (.error .noSettings, [])
    | some s =>
      if pkFalsy s.private_key then (.error .missingCreds, [])
      else
        let effs := [Effect.marketLookup (repeatSlug req)]
        if tokenFalsy (repeatToken env req) then (.error .tokenNotFound, effs)
        else
          let wm := repeatWalletMode env s
          let ceff := Effect.clientCreated (cleanKey (s.private_key.getD [])) wm.1 wm.2
          if env.clientOk then
            match TradeService.place_order ((repeatToken env req).getD [])
                (repeatSide req) req.size req.price req.usdc_size with
            | .error e => (.error (.orderErr e), effs ++ [ceff])
            | .ok o => (.ok o, effs ++ [ceff, .orderPosted o])
          else (.error .clientFailed, effs ++ [ceff])
  else (.error .invalidInput, [])

/-! ### `/api/set-creds` (app.py, `set_creds`) -/

/-- Errors of the credential-saving endpoint. -/
inductive CredErr
  | missingCreds
  | invalidKey
  | proxyDetectFailed
deriving DecidableEq

/-- The request body of `/api/set-creds`. -/
structure CredsReq where
  private_key : Option PStr
  funder : Option PStr
  signature_type : Option Int
deriving DecidableEq

/-- External responses for `set_creds`: the address derived from the key
(`none` = `Account.from_key` raised) and the proxy auto-detection outcome
(`WalletService.detect_proxy`; `none` = not detected). -/
structure CredsEnv where
  derived : Option PStr
  detect : Option PStr

/-- The wallet-mode decision logic of `set_creds`: returns the saved
`(funder, signature_type)` pair (or an error), together with whether the
proxy-detection network call was issued. -/
def set_creds_resolve (env : CredsEnv) (req : CredsReq) :
    Except CredErr (PStr × Int) × Bool :=
  let pk := cleanKey (pTrim (req.private_key.getD []))
  let funder0 := pTrim (req.funder.getD [])
  let sig0 := req.signature_type.getD 0
  if pk.isEmpty then (.error .missingCreds, false)
  else
    match env.derived with
    | none => (.error .invalidKey, false)
    | some derived =>
      if sig0 = 2 then
        if funder0.isEmpty then
          match env.detect with
          | some d => (.ok (d, 2), true)
          | none => (.error .proxyDetectFailed, true)
        else (.ok (funder0, 2), false)
      else
        if !funder0.isEmpty && !(pLower funder0 == pLower derived) then
          (.ok (funder0, 2), false)
        else if funder0.isEmpty then
          match env.detect with
          | some d => (.ok (d, 2), true)
          | none => (.ok (derived, 0), true)
        else (.ok (funder0, sig0), false)

/-! ### `/api/cash` (app.py, `api_cash`) -/

/-- External responses for the balance route: settings, the derived address
(`none` = `Account.from_key` raised; the `except: pass` leaves the funder
unset), and the proxy-detection outcome. -/
structure CashEnv where
  settings : Option Settings
  derived : Option PStr
  detect : Option PStr

/-- The wallet-mode portion of `api_cash`: the `(funder, signature_type)`
pair handed to `WalletService.get_balances` (`none` = the route answered
with a missing-credentials error instead). -/
def api_cash_mode (env : CashEnv) : Option (Option PStr × Int) :=
  match env.settings with
  | none => none
  | some s =>
    if pkFalsy s.private_key then none
    else
      let sig0 := s.signature_type.getD 0
      let fs1 : Option PStr × Int :=
        if truthyS s.funder then (s.funder, sig0)
        else
          match env.derived with
          | none => (s.funder, sig0)
          | some d =>
            match env.detect with
            | some det => (some det, 2)
            | none => (some d, sig0)
      let sig2 :=
        if (match fs1.1 with
            | some f => !f.isEmpty && magic f
            | none => false) then 2 else fs1.2
      some (fs1.1, sig2)

/-! ## WalletService.get_balances (src/services/wallet_service.py) -/

/-- The primary collateral path of `get_balances`: the exchange's
`get_balance_allowance` endpoint (with its `float(res.get("balance") or 0)`
decoding, `none` = missing/falsy balance field or non-dict response), the
`get_balance` list scanned for a `COLLATERAL` entry when the endpoint
raises, or total failure (either call raising, a non-list `get_balance`
result, or client creation failing) which leaves the figure at `0.0`. -/
inductive PrimaryResult
  | endpoint (balance : Option ℚ)
  | scan (entries : List (PStr × Option ℚ))
  | failed
deriving DecidableEq

/-- The cash figure the primary path produces. -/
def primaryCash : PrimaryResult → ℚ
  | .endpoint b => b.getD 0
  | .scan es =>
    match es.find? (fun e => e.1 == pstr ("COLLATERAL")) with
    | some e => e.2.getD 0
    | none => 0
  | .failed => 0

/-- External responses for one `get_balances` call: the primary collateral
path and the four direct read-only contract calls, each already decoded to
the figure the helper returns (the helpers yield `0.0` on their own
failures). -/
structure BalEnv where
  primary : PrimaryResult
  usdcE : ℚ
  usdcNative : ℚ
  allowance : ℚ
  matic : ℚ
deriving DecidableEq

/-- The balance snapshot returned by `get_balances`. -/
structure Snapshot where
  cash : ℚ
  usdc_native : ℚ
  matic : ℚ
  allowance : ℚ
  funder : Option PStr
  signature_type : Int
deriving DecidableEq

namespace WalletService

/-- `WalletService.get_balances(pk, funder, sig_type, client_func)`:
the primary collateral figure, replaced by the direct bridged-stablecoin
(USDC.e) contract balance when it is exactly zero and the contract balance
is positive; the other three figures are reported independently. -/
def get_balances (env : BalEnv) (funder : Option PStr) (sig_type : Int) : Snapshot :=
  let cash0 := primaryCash env.primary
  let cash := if cash0 = 0 ∧ env.usdcE > 0 then env.usdcE else cash0
  { cash := cash
    usdc_native := env.usdcNative
    matic := env.matic
    allowance := env.allowance
    funder := funder
    signature_type := sig_type }

end WalletService

/-! ## Data-API fetch fallback (src/FKPolySDK/api_src/fetcher.py,
src/FKPolySDK/src/api_clients.py, src/services/wallet_service.py) -/

/-- One activity record as read by `detect_proxy` (`data[0].get("proxyWallet")`). -/
structure ActItem where
  proxyWallet : Option PStr
deriving DecidableEq

/-- An HTTP response: status code plus body (`some l` when `r.json()` is a
list, `none` when it is valid JSON of another shape). -/
structure Resp where
  status : Nat
  body : Option (List ActItem)
deriving DecidableEq

/-- The retry condition of the fetcher module: `r.status_code != 200 or not
isinstance(r.json(), list) or len(r.json()) == 0`. -/
def needsFallback (r : Resp) : Bool :=
  r.status != 200 ||
    (match r.body with
     | none => true
     | some l => l.isEmpty)

/-- `fetcher.fetch_activity_for_user(address)`: query with `user`, retry
with `proxyWallet` when `needsFallback`, then decode the chosen response.
Returns the list plus whether the second attempt was issued. -/
def fetch_activity_for_user (first second : Resp) : List ActItem × Bool :=
  let retried := needsFallback first
  let r := if retried then second else first
  if r.status != 200 then ([], retried)
  else
    match r.body with
    | none => ([], retried)
    | some l => (l, retried)

/-- `fetcher.fetch_trades_for_user(address)`: identical logic to the
activity fetcher. -/
def fetch_trades_for_user (first second : Resp) : List ActItem × Bool :=
  fetch_activity_for_user first second

/-- Acceptance test of the api-client variants: `r.status_code == 200 and
isinstance(r.json(), list)` — an empty list is accepted. -/
def clientAccepts (r : Resp) : Bool := r.status == 200 && r.body.isSome

/-- `DataApiClient.get_trades(user)`: first attempt with `user`, second
attempt with `proxyWallet` only when the first is rejected; `[]` when both
are.  Returns the list plus whether the second attempt was issued. -/
def dataapi_get_trades (first second : Resp) : List ActItem × Bool :=
  if clientAccepts first then (first.body.getD [], false)
  else if clientAccepts second then (second.body.getD [], true)
  else ([], true)

/-- `DataApiClient.get_activity(user, limit)`: same two-attempt logic. -/
def dataapi_get_activity (first second : Resp) : List ActItem × Bool :=
  dataapi_get_trades first second

namespace WalletService

/-- `WalletService.detect_proxy(address)`: a single `user`-parameter query
(no `proxyWallet` fallback); the most recent record's `proxyWallet`, when
truthy and different (case-insensitively) from the queried address, is the
detected proxy.  The second component records whether a second request was
issued (never). -/
def detect_proxy (address : PStr) (resp : Resp) : Option PStr × Bool :=
  ( if resp.status == 200 then
      match resp.body with
      | some (it :: _) =>
        (match it.proxyWallet with
         | some p =>
           if !p.isEmpty && !(pLower p == pLower address) then some p else none
         | none => none)
      | _ => none
    else none
  , false)

end WalletService

/-! ## Shared helper lemmas -/

/-- A string passing the `0x9402` test is non-empty. -/
lemma magic_ne_nil {f : PStr} (h : magic f = true) : f.isEmpty = false := by
  cases f with
  | nil => exact absurd h (by decide)
  | cons c cs => rfl

/-- The resolution-phase effects of `/api/place-order` are lookups only. -/
lemma placeResolveEffs_all_lookup (req : OrderReq) :
    (placeResolveEffs req).all isLookup = true := by
  unfold placeResolveEffs
  split <;> rfl

/-- Under the numeric shortcut, the resolution phase performs no lookup. -/
lemma placeResolveEffs_of_shortcut {req : OrderReq} (h : placeShortcut req = true) :
    placeResolveEffs req = [] := by
  unfold placeResolveEffs
  simp [h]

/-! ## C2 — market-order amount semantics (src/services/trade_service.py) -/

/-- C2 counterexample: the claim says every negative required amount is
rejected with `MissingAmount` and no order is posted; but `if not
usdc_amount` only rejects `None`/`0`, so a `BUY` market request with
`usdc_amount = -5` posts a fill-or-kill order of amount `-5`. -/
theorem market_buy_negative_amount_accepted :
    TradeService.place_order (pstr ("t")) (pstr ("BUY")) none none (some (-5))
      = Except.ok (Submitted.marketFOK (pstr ("t")) (-5) Side.buy)
    ∧ ((-5 : ℚ) < 0) := by
  constructor
  · decide
  · norm_num

/-- C2 (amended): for a market submission (no price), side `BUY` submits
exactly the notional (`usdc_amount`) and side `SELL` exactly the size; the
required field being absent or equal to zero raises `MissingAmount`;
negative values are not rejected — the order is posted with the negative
amount. -/
theorem market_order_amount_semantics :
    (∀ (t side : PStr) (size usdc : Option ℚ), pUpper side = pstr ("BUY") →
      (falsyQ usdc = true →
        TradeService.place_order t side size none usdc
          = .error .missingBuyAmount)
      ∧ (falsyQ usdc = false → ∀ a, usdc = some a →
        TradeService.place_order t side size none usdc
          = .ok (.marketFOK t a .buy)))
    ∧ (∀ (t side : PStr) (size usdc : Option ℚ), pUpper side ≠ pstr ("BUY") →
      (falsyQ size = true →
        TradeService.place_order t side size none usdc
          = .error .missingSellSize)
      ∧ (falsyQ size = false → ∀ a, size = some a →
        TradeService.place_order t side size none usdc
          = .ok (.marketFOK t a .sell))) := by
  constructor
  · intro t side size usdc h
    constructor
    · intro hf
      simp [TradeService.place_order, h, hf]
    · intro hf a ha
      subst ha
      simp [TradeService.place_order, h, hf]
  · intro t side size usdc h
    constructor
    · intro hf
      simp [TradeService.place_order, h, hf]
    · intro hf a ha
      subst ha
      simp [TradeService.place_order, h, hf]

/-- Witness for C2 (amended) at concrete inputs. -/
theorem market_order_amount_semantics_witness :
    TradeService.place_order (pstr ("tok")) (pstr ("buy")) none none (some 10)
      = Except.ok (Submitted.marketFOK (pstr ("tok")) 10 Side.buy)
    ∧ TradeService.place_order (pstr ("tok")) (pstr ("sell")) none none none
      = Except.error TradeService.TErr.missingSellSize :=
  ⟨(market_order_amount_semantics.1 (pstr ("tok")) (pstr ("buy")) none (some 10)
      (by decide)).2 (by decide) 10 rfl,
   (market_order_amount_semantics.2 (pstr ("tok")) (pstr ("sell")) none none
      (by decide)).1 (by decide)⟩

/-! ## C5 — outcome-index resolution precedence
(src/FKPolySDK/src/market_service.py) -/

/-- C5 counterexample: on a binary market with `outcomes = ["Yes","No"]` and
`clobTokenIds = ["A","B"]`, resolving with no explicit index and no outcome
label returns no token at all — the claimed "unspecified outcome resolves to
index 0" default does not exist in `resolve_token_id`. -/
theorem unspecified_outcome_not_defaulted :
    MarketService.resolve_token_id
      (some ⟨.jlist [pstr ("A"), pstr ("B")], .jlist [pstr ("Yes"), pstr ("No")]⟩)
      none none = none
    ∧ MarketService.resolve_token_id
      (some ⟨.jlist [pstr ("A"), pstr ("B")], .jlist [pstr ("Yes"), pstr ("No")]⟩)
      none none ≠ some (pstr ("A")) := by
  decide

/-- C5 (amended): an explicit integer `outcome_index` is used directly
(the outcome label is ignored); otherwise the label list is scanned for a
case-insensitive, whitespace-trimmed match and the first match wins; on
`outcomes = ["Yes","No"]`, `clobTokenIds = [A,B]`, a label normalising to
`yes` yields `A`, one normalising to `no` yields `B`, and an unmatched
label fails; an unspecified outcome with no explicit index also fails
(there is no default to index 0). -/
theorem outcome_resolution_precedence :
    (∀ (m : MarketRec) (i : Int) (o : Option PStr),
      MarketService.resolve_token_id (some m) (some i) o = MarketService.tokenAt m i)
    ∧ (∀ (m : MarketRec) (o : PStr) (outs : List PStr) (j : Nat),
      decodeJ m.outcomes = some outs → findLabelIdx outs o = some j →
      MarketService.resolve_token_id (some m) none (some o)
        = MarketService.tokenAt m (j : Int))
    ∧ (∀ (o x : PStr) (xs : List PStr), pNorm x = pNorm o →
      findLabelIdx (x :: xs) o = some 0)
    ∧ (∀ (A B o : PStr),
      (pNorm o = pstr ("yes") →
        MarketService.resolve_token_id
          (some ⟨.jlist [A, B], .jlist [pstr ("Yes"), pstr ("No")]⟩)
          none (some o) = some A)
      ∧ (pNorm o = pstr ("no") →
        MarketService.resolve_token_id
          (some ⟨.jlist [A, B], .jlist [pstr ("Yes"), pstr ("No")]⟩)
          none (some o) = some B)
      ∧ (pNorm o ≠ pstr ("yes") → pNorm o ≠ pstr ("no") →
        MarketService.resolve_token_id
          (some ⟨.jlist [A, B], .jlist [pstr ("Yes"), pstr ("No")]⟩)
          none (some o) = none))
    ∧ (∀ (m : MarketRec),
      MarketService.resolve_token_id (some m) none none = none) := by
  refine ⟨?_, ?_, ?_, ?_, ?_⟩
  · intro m i o
    rfl
  · intro m o outs j h1 h2
    simp [MarketService.resolve_token_id, MarketService.tokenAt, h1, h2]
  · intro o x xs h
    simp [findLabelIdx, scanFrom, h]
  · intro A B o
    have hY : pNorm (pstr ("Yes")) = pstr ("yes") := by decide
    have hN : pNorm (pstr ("No")) = pstr ("no") := by decide
    refine ⟨?_, ?_, ?_⟩
    · intro h
      simp [MarketService.resolve_token_id, decodeJ, findLabelIdx, scanFrom,
        hY, hN, h, pyIndex]
    · intro h
      have hne : pstr ("yes") ≠ pNorm o := by
        rw [h]; decide
      have hyn : pstr ("yes") ≠ pstr ("no") := by decide
      simp [MarketService.resolve_token_id, decodeJ, findLabelIdx, scanFrom,
        hY, hN, h, hne, hyn, pyIndex]
    · intro h1 h2
      have hne1 : pstr ("yes") ≠ pNorm o := fun he => h1 he.symm
      have hne2 : pstr ("no") ≠ pNorm o := fun he => h2 he.symm
      simp [MarketService.resolve_token_id, decodeJ, findLabelIdx, scanFrom,
        hY, hN, hne1, hne2]
  · intro m
    cases h : decodeJ m.outcomes <;>
      simp [MarketService.resolve_token_id, h]

/-- Witness for C5 (amended) at concrete inputs. -/
theorem outcome_resolution_precedence_witness :
    MarketService.resolve_token_id
      (some ⟨.jlist [pstr ("111"), pstr ("222")], .jlist [pstr ("Yes"), pstr ("No")]⟩)
      none (some (pstr (" YES "))) = some (pstr ("111"))
    ∧ MarketService.resolve_token_id
      (some ⟨.jlist [pstr ("111"), pstr ("222")], .jlist [pstr ("Yes"), pstr ("No")]⟩)
      none (some (pstr ("No"))) = some (pstr ("222"))
    ∧ MarketService.resolve_token_id
      (some ⟨.jlist [pstr ("111"), pstr ("222")], .jlist [pstr ("Yes"), pstr ("No")]⟩)
      none (some (pstr ("Maybe"))) = none :=
  ⟨((outcome_resolution_precedence.2.2.2.1 (pstr ("111")) (pstr ("222"))
      (pstr (" YES "))).1 (by decide)),
   ((outcome_resolution_precedence.2.2.2.1 (pstr ("111")) (pstr ("222"))
      (pstr ("No"))).2.1 (by decide)),
   ((outcome_resolution_precedence.2.2.2.1 (pstr ("111")) (pstr ("222"))
      (pstr ("Maybe"))).2.2 (by decide) (by decide))⟩

/-! ## C7 — token-index range behaviour
(src/FKPolySDK/src/market_service.py) -/

/-- C7 counterexample: the claim says every out-of-range index, including
negative explicit indices, fails with no token returned; but the code only
checks `idx >= len(tokens)`, so `outcome_index = -1` on
`clobTokenIds = ["A","B"]` returns `"B"` via Python negative indexing. -/
theorem negative_outcome_index_wraps :
    MarketService.resolve_token_id
      (some ⟨.jlist [pstr ("A"), pstr ("B")], .jabsent⟩) (some (-1)) none
      = some (pstr ("B"))
    ∧ MarketService.resolve_token_id
      (some ⟨.jlist [pstr ("A"), pstr ("B")], .jabsent⟩) (some (-1)) none
      ≠ none := by
  decide

/-- C7 (amended): after decoding the token list (native or JSON-encoded
string), an explicit index `i ≥ len` fails with no token; `0 ≤ i < len`
returns the `i`-th token; a negative `i` with `-len ≤ i` wraps around and
returns the `(len + i)`-th token (Python negative indexing) instead of
failing; `i < -len` produces no token (an uncaught `IndexError`). -/
theorem token_index_range_semantics :
    ∀ (m : MarketRec) (l : List PStr) (i : Int) (o : Option PStr),
      decodeJ m.clobTokenIds = some l →
      ((i ≥ (l.length : Int) →
         MarketService.resolve_token_id (some m) (some i) o = none)
       ∧ (0 ≤ i → i < (l.length : Int) →
         MarketService.resolve_token_id (some m) (some i) o = l.get? i.toNat)
       ∧ (-(l.length : Int) ≤ i → i < 0 →
         MarketService.resolve_token_id (some m) (some i) o
           = l.get? (l.length - (-i).toNat))
       ∧ (i < -(l.length : Int) →
         MarketService.resolve_token_id (some m) (some i) o = none)) := by
  intro m l i o h
  refine ⟨?_, ?_, ?_, ?_⟩
  · intro hge
    simp [MarketService.resolve_token_id, h, hge]
  · intro h0 hlt
    have : ¬ i ≥ (l.length : Int) := by omega
    simp [MarketService.resolve_token_id, h, this, pyIndex, h0]
  · intro hle hneg
    have h1 : ¬ i ≥ (l.length : Int) := by omega
    have h2 : ¬ (0 ≤ i) := by omega
    simp [MarketService.resolve_token_id, h, h1, pyIndex, h2, hle]
  · intro hlt
    have h1 : ¬ i ≥ (l.length : Int) := by omega
    have h2 : ¬ (0 ≤ i) := by omega
    have h3 : ¬ (-(l.length : Int) ≤ i) := by omega
    simp [MarketService.resolve_token_id, h, h1, pyIndex, h2, h3]

/-- Witness for C7 (amended) at concrete inputs, with the token list
arriving as a JSON-encoded string. -/
theorem token_index_range_semantics_witness :
    MarketService.resolve_token_id
      (some ⟨.jstr (some [pstr ("A"), pstr ("B")]), .jabsent⟩) (some 5) none = none
    ∧ MarketService.resolve_token_id
      (some ⟨.jstr (some [pstr ("A"), pstr ("B")]), .jabsent⟩) (some 1) none
      = some (pstr ("B")) :=
  ⟨(token_index_range_semantics ⟨.jstr (some [pstr ("A"), pstr ("B")]), .jabsent⟩
      [pstr ("A"), pstr ("B")] 5 none rfl).1 (by decide),
   by
    have := (token_index_range_semantics ⟨.jstr (some [pstr ("A"), pstr ("B")]), .jabsent⟩
      [pstr ("A"), pstr ("B")] 1 none rfl).2.1 (by decide) (by decide)
    simpa using this⟩

/-! ## C8 — bridged-stablecoin balance substitution
(src/services/wallet_service.py, `get_balances`) -/

/-- C8: whenever the primary collateral figure is exactly zero (including
every failure mode of that path, which leaves it at `0.0`) and the direct
USDC.e contract balance of the funder is positive, the snapshot's cash is
the contract balance. -/
theorem bridged_balance_substitution :
    ∀ (env : BalEnv) (funder : Option PStr) (sig : Int),
      primaryCash env.primary = 0 → env.usdcE > 0 →
      (WalletService.get_balances env funder sig).cash = env.usdcE := by
  intro env funder sig h1 h2
  simp [WalletService.get_balances, h1, h2]

/-- Witness for C8: the collateral endpoint throws (primary path fails) and
the bridged-contract balance is `42.50`, so the snapshot cash is `42.50`. -/
theorem bridged_balance_substitution_witness :
    primaryCash PrimaryResult.failed = 0
    ∧ (WalletService.get_balances
        ⟨PrimaryResult.failed, 85 / 2, 0, 0, 0⟩ none 0).cash = 85 / 2 :=
  ⟨rfl,
   bridged_balance_substitution ⟨PrimaryResult.failed, 85 / 2, 0, 0, 0⟩ none 0
     rfl (by norm_num)⟩

/-! ## C9 — two-attempt `user` / `proxyWallet` fallback convention -/

/-- C9 counterexample: the api-client variant and proxy detection do not
follow the fetcher module's retry condition.  At a 200/empty-list first
response the convention demands a retry, yet `DataApiClient.get_trades`
does not retry, and `WalletService.detect_proxy` never issues a second
request at all. -/
theorem dataapi_no_retry_on_empty_list :
    needsFallback ⟨200, some []⟩ = true
    ∧ (dataapi_get_trades ⟨200, some []⟩ ⟨200, some []⟩).2 = false
    ∧ (WalletService.detect_proxy (pstr ("0xabc")) ⟨0, none⟩).2 = false := by
  decide

/-- C9 (amended): the fetcher module's two functions retry exactly when the
first response is non-200, not a list, or an empty list; the api-client
variants retry exactly when the first response is non-200 or not a list
(an empty list is accepted without retry); proxy detection performs a
single `user`-parameter query and never retries. -/
theorem fallback_retry_conditions :
    (∀ first second : Resp,
      (fetch_activity_for_user first second).2 = needsFallback first)
    ∧ (∀ first second : Resp,
      (fetch_trades_for_user first second).2 = needsFallback first)
    ∧ (∀ first second : Resp,
      (dataapi_get_trades first second).2 = !clientAccepts first)
    ∧ (∀ first second : Resp,
      (dataapi_get_activity first second).2 = !clientAccepts first)
    ∧ (∀ (a : PStr) (r : Resp), (WalletService.detect_proxy a r).2 = false) := by
  have hfetch : ∀ first second : Resp,
      (fetch_activity_for_user first second).2 = needsFallback first := by
    intro first second
    simp only [fetch_activity_for_user]
    split <;> split <;> first | rfl | (split <;> rfl)
  have hdata : ∀ first second : Resp,
      (dataapi_get_trades first second).2 = !clientAccepts first := by
    intro first second
    unfold dataapi_get_trades
    split
    · next h => simp [h]
    · next h =>
      split <;> simp [Bool.not_eq_true] at h ⊢ <;> simp [h]
  exact ⟨hfetch, hfetch, hdata, hdata, fun a r => rfl⟩

/-! ## C1 — no order submission on resolution failure (src/app.py) -/

/-- C1: on both order-placement endpoints, whenever token resolution fails
(market lookup empty/failed, outcome unresolved, index out of range — all
the cases in which the resolved token is falsy), the route answers with an
error and the side-effect trace contains at most the market lookup: the
exchange client is never created and no order call is made. -/
theorem place_order_no_submission_on_resolution_failure :
    (∀ (env : Env) (req : OrderReq), tokenFalsy (placeToken env req) = true →
      isErrR (app_place_order env req).1 = true
      ∧ ((app_place_order env req).2.all isLookup) = true)
    ∧ (∀ (env : Env) (req : RepeatReq), tokenFalsy (repeatToken env req) = true →
      isErrR (app_repeat_order env req).1 = true
      ∧ ((app_repeat_order env req).2.all isLookup) = true) := by
  constructor
  · intro env req h
    simp only [app_place_order, h, if_true]
    split
    · split
      · exact ⟨rfl, rfl⟩
      · split
        · exact ⟨rfl, rfl⟩
        · exact ⟨rfl, placeResolveEffs_all_lookup req⟩
    · exact ⟨rfl, rfl⟩
  · intro env req h
    simp only [app_repeat_order, h, if_true]
    split
    · split
      · exact ⟨rfl, rfl⟩
      · split
        · exact ⟨rfl, rfl⟩
        · exact ⟨rfl, rfl⟩
    · exact ⟨rfl, rfl⟩

/-- Witness for C1: the market-metadata lookup fails for a slug on both
endpoints; each answers with an error and performs only the lookup. -/
theorem place_order_no_submission_on_resolution_failure_witness :
    (isErrR (app_place_order
        ⟨some ⟨some (pstr ("ab")), none, some 0⟩, none, none, true⟩
        ⟨some (pstr ("will-it-rain")), none, some (pstr ("buy")), none,
          none, none, some 10⟩).1 = true
      ∧ ((app_place_order
        ⟨some ⟨some (pstr ("ab")), none, some 0⟩, none, none, true⟩
        ⟨some (pstr ("will-it-rain")), none, some (pstr ("buy")), none,
          none, none, some 10⟩).2.all isLookup) = true)
    ∧ (isErrR (app_repeat_order
        ⟨some ⟨some (pstr ("ab")), none, some 0⟩, none, none, true⟩
        ⟨some (pstr ("will-it-rain")), none, none, some (pstr ("buy")),
          none, none, none⟩).1 = true
      ∧ ((app_repeat_order
        ⟨some ⟨some (pstr ("ab")), none, some 0⟩, none, none, true⟩
        ⟨some (pstr ("will-it-rain")), none, none, some (pstr ("buy")),
          none, none, none⟩).2.all isLookup) = true) :=
  ⟨place_order_no_submission_on_resolution_failure.1
      ⟨some ⟨some (pstr ("ab")), none, some 0⟩, none, none, true⟩
      ⟨some (pstr ("will-it-rain")), none, some (pstr ("buy")), none,
        none, none, some 10⟩ (by decide),
   place_order_no_submission_on_resolution_failure.2
      ⟨some ⟨some (pstr ("ab")), none, some 0⟩, none, none, true⟩
      ⟨some (pstr ("will-it-rain")), none, none, some (pstr ("buy")),
        none, none, none⟩ (by decide)⟩

/-! ## C3 — the `0x9402` custodial-wallet override (src/app.py) -/

/-- C3 counterexample: the claim says every wallet-mode-resolving operation
(including credential saving) forces signature type 2 for a `0x9402`
funder; but `set_creds` has no such override — with signature type 0 and a
funder equal to the derived address (both starting `0x9402`) it saves
signature type 0. -/
theorem set_creds_magic_funder_keeps_eoa :
    (set_creds_resolve ⟨some (pstr ("0x9402aa")), none⟩
       ⟨some (pstr ("ab")), some (pstr ("0x9402aa")), some 0⟩).1
      = Except.ok (pstr ("0x9402aa"), 0)
    ∧ magic (pstr ("0x9402aa")) = true
    ∧ (0 : Int) ≠ 2 := by
  decide

/-- C3 (amended): the `0x9402` override is applied by the two
order-placement endpoints and by the balance query — whenever the funder
they resolve starts (case-insensitively) with `0x9402`, the signature type
they use is PROXY(2) regardless of the stored value — but the
credential-saving endpoint does not apply it. -/
theorem magic_funder_forces_proxy_on_order_and_balance_paths :
    (∀ (env : Env) (s : Settings) (f : PStr) (σ : Int),
      placeWalletMode env s = (some f, σ) → magic f = true → σ = 2)
    ∧ (∀ (env : Env) (s : Settings) (f : PStr) (σ : Option Int),
      repeatWalletMode env s = (some f, σ) → magic f = true → σ = some 2)
    ∧ (∀ (env : CashEnv) (p : Option PStr × Int) (f : PStr),
      api_cash_mode env = some p → p.1 = some f → magic f = true →
      p.2 = 2) := by
  refine ⟨?_, ?_, ?_⟩
  · intro env s f σ hpm hm
    simp only [placeWalletMode] at hpm
    split at hpm
    · split at hpm
      · injection hpm with h1 h2
        exact h2.symm
      · next hmf =>
        injection hpm with h1 h2
        injection h1 with h1
        rw [h1] at hmf
        exact absurd hm hmf
    · injection hpm with h1 h2
      exact Option.noConfusion h1
  · intro env s f σ hpm hm
    simp only [repeatWalletMode] at hpm
    split at hpm
    · split at hpm
      · injection hpm with h1 h2
        exact h2.symm
      · next hmf =>
        injection hpm with h1 h2
        injection h1 with h1
        rw [h1] at hmf
        exact absurd hm hmf
    · next htr =>
      injection hpm with h1 h2
      rw [h1] at htr
      simp [truthyS, magic_ne_nil hm] at htr
  · intro env p f hmode hp hm
    simp only [api_cash_mode] at hmode
    split at hmode
    · exact Option.noConfusion hmode
    · split at hmode
      · exact Option.noConfusion hmode
      · injection hmode with hmode
        subst hmode
        dsimp only at hp ⊢
        simp only [hp]
        simp [magic_ne_nil hm, hm]

/-- Witness for C3 (amended) at concrete inputs. -/
theorem magic_funder_forces_proxy_witness :
    placeWalletMode ⟨none, none, none, true⟩
        ⟨some (pstr ("ab")), some (pstr ("0x9402Aa")), some 0⟩
      = (some (pstr ("0x9402Aa")), 2)
    ∧ repeatWalletMode ⟨none, none, none, true⟩
        ⟨some (pstr ("ab")), some (pstr ("0x9402Aa")), some 1⟩
      = (some (pstr ("0x9402Aa")), some 2)
    ∧ (2 : Int) = 2 :=
  ⟨by decide, by decide,
   magic_funder_forces_proxy_on_order_and_balance_paths.2.2
     ⟨some ⟨some (pstr ("ab")), some (pstr ("0x9402Aa")), some 0⟩, none, none⟩
     (some (pstr ("0x9402Aa")), 2) (pstr ("0x9402Aa")) (by decide) rfl (by decide)⟩

/-! ## C4 — wallet-mode resolution for stored EOA / absent signature type
(src/app.py `set_creds`, src/services/wallet_service.py `detect_proxy`) -/

/-- C4: with stored signature type EOA(0) or absent, `set_creds` promotes a
case-insensitively differing funder to PROXY(2); with no funder it attempts
auto-detection (detected proxy, PROXY(2)) falling back to (derived address,
EOA(0)); and a supplied funder equal to the derived address yields (derived
address, EOA(0)) with zero network calls (the second component of
`set_creds_resolve` records whether the detection call was issued). -/
theorem eoa_wallet_mode_resolution :
    ∀ (env : CredsEnv) (req : CredsReq) (derived : PStr),
      (req.signature_type = none ∨ req.signature_type = some 0) →
      (cleanKey (pTrim (req.private_key.getD []))).isEmpty = false →
      env.derived = some derived →
      ((pTrim (req.funder.getD []) ≠ [] →
          pLower (pTrim (req.funder.getD [])) ≠ pLower derived →
          set_creds_resolve env req = (.ok (pTrim (req.funder.getD []), 2), false))
       ∧ (pTrim (req.funder.getD []) = [] → env.detect = none →
          set_creds_resolve env req = (.ok (derived, 0), true))
       ∧ (∀ d, pTrim (req.funder.getD []) = [] → env.detect = some d →
          set_creds_resolve env req = (.ok (d, 2), true))
       ∧ (pTrim (req.funder.getD []) = derived → derived ≠ [] →
          set_creds_resolve env req = (.ok (derived, 0), false))) := by
  intro env req derived h0 hpk hd
  have hsig : req.signature_type.getD 0 = 0 := by
    rcases h0 with h | h <;> simp [h]
  refine ⟨?_, ?_, ?_, ?_⟩
  · intro hf1 hf2
    simp [set_creds_resolve, hpk, hd, hsig, hf1, hf2, List.isEmpty_iff]
  · intro hf hdet
    simp [set_creds_resolve, hpk, hd, hsig, hf, hdet]
  · intro d hf hdet
    simp [set_creds_resolve, hpk, hd, hsig, hf, hdet]
  · intro hf hne
    simp [set_creds_resolve, hpk, hd, hsig, hf, List.isEmpty_iff, hne]

/-- Witness for C4: a stored funder equal to the derived address, with no
stored signature type, resolves to (derived, EOA(0)) with no detection
call. -/
theorem eoa_wallet_mode_resolution_witness :
    set_creds_resolve ⟨some (pstr ("0xAb")), none⟩
        ⟨some (pstr ("cd")), some (pstr ("0xAb")), none⟩
      = (.ok (pstr ("0xAb"), 0), false) :=
  (eoa_wallet_mode_resolution ⟨some (pstr ("0xAb")), none⟩
      ⟨some (pstr ("cd")), some (pstr ("0xAb")), none⟩ (pstr ("0xAb"))
      (Or.inl rfl) (by decide) rfl).2.2.2 (by decide) (by decide)

/-! ## C6 — the numeric literal-token-id shortcut (src/app.py) -/

/-- C6 counterexample: the claim says every order-placement path treats a
purely numeric input longer than 10 characters as a literal token id with
no network call; but `/api/repeat-order` has no such shortcut — a numeric
length-11 slug goes through the market-metadata lookup (a network call)
and, when that lookup finds nothing, the order fails instead of using the
input unchanged. -/
theorem repeat_order_numeric_slug_performs_lookup :
    app_repeat_order
      ⟨some ⟨some (pstr ("ab")), none, some 0⟩, none, none, true⟩
      ⟨some (pstr ("12345678901")), none, none, some (pstr ("buy")), none, none, none⟩
      = (.error RouteErr.tokenNotFound, [Effect.marketLookup (pstr ("12345678901"))])
    ∧ pIsDigit (pstr ("12345678901")) = true
    ∧ (pstr ("12345678901")).length > 10 := by
  decide

/-- C6 (amended): on the `/api/place-order` path a purely numeric slug
longer than 10 characters is used unchanged as the token id and the trace
contains no market lookup; on the `/api/repeat-order` path, any request
that gets past the input checks performs the market-metadata lookup (its
non-empty effect trace always contains the lookup). -/
theorem numeric_token_id_shortcut :
    (∀ (env : Env) (req : OrderReq), placeShortcut req = true →
      placeToken env req = some (placeSlug req)
      ∧ ((app_place_order env req).2.all (fun e => !isLookup e)) = true)
    ∧ (∀ (env : Env) (req : RepeatReq),
      (app_repeat_order env req).2 ≠ [] →
      Effect.marketLookup (repeatSlug req) ∈ (app_repeat_order env req).2) := by
  constructor
  · intro env req h
    refine ⟨by simp [placeToken, h], ?_⟩
    simp only [app_place_order, placeSubmit, placeResolveEffs_of_shortcut h,
      List.nil_append]
    repeat' split
    all_goals rfl
  · intro env req
    simp only [app_repeat_order]
    repeat' split
    all_goals intro h
    all_goals first
      | exact absurd rfl h
      | exact List.mem_cons_self _ _

/-- Witness for C6 (amended) at concrete inputs. -/
theorem numeric_token_id_shortcut_witness :
    (placeToken ⟨some ⟨some (pstr ("ab")), none, some 0⟩, none, none, true⟩
        ⟨some (pstr ("12345678901")), none, some (pstr ("buy")), none,
          none, none, some 10⟩
      = some (placeSlug ⟨some (pstr ("12345678901")), none, some (pstr ("buy")),
          none, none, none, some 10⟩)
     ∧ ((app_place_order ⟨some ⟨some (pstr ("ab")), none, some 0⟩, none, none, true⟩
        ⟨some (pstr ("12345678901")), none, some (pstr ("buy")), none,
          none, none, some 10⟩).2.all (fun e => !isLookup e)) = true)
    ∧ Effect.marketLookup
        (repeatSlug ⟨some (pstr ("abc-slug")), none, none, some (pstr ("sell")),
          none, none, none⟩)
      ∈ (app_repeat_order ⟨some ⟨some (pstr ("ab")), none, some 0⟩, none, none, true⟩
        ⟨some (pstr ("abc-slug")), none, none, some (pstr ("sell")),
          none, none, none⟩).2 :=
  ⟨numeric_token_id_shortcut.1
      ⟨some ⟨some (pstr ("ab")), none, some 0⟩, none, none, true⟩
      ⟨some (pstr ("12345678901")), none, some (pstr ("buy")), none,
        none, none, some 10⟩ (by decide),
   numeric_token_id_shortcut.2
      ⟨some ⟨some (pstr ("ab")), none, some 0⟩, none, none, true⟩
      ⟨some (pstr ("abc-slug")), none, none, some (pstr ("sell")),
        none, none, none⟩ (by decide)⟩

/-! ## C10 — `order_type` is parsed but never consulted (src/app.py,
src/services/trade_service.py) -/

/-- C10: two `/api/place-order` requests differing only in `order_type`
produce identical results and identical side-effect traces — the field is
read by the route and never consulted, and market-vs-limit is decided
solely by the presence of a price; concretely, a request with
`order_type = "LIMIT"` and no price submits a fill-or-kill market order. -/
theorem order_type_never_consulted :
    (∀ (env : Env) (req : OrderReq) (t₁ t₂ : Option PStr),
      app_place_order env { req with order_type := t₁ }
        = app_place_order env { req with order_type := t₂ })
    ∧ app_place_order
        ⟨some ⟨some (pstr ("ab")), none, some 0⟩, none, none, true⟩
        ⟨some (pstr ("12345678901")), none, some (pstr ("buy")),
          some (pstr ("LIMIT")), none, none, some 10⟩
      = (.ok (.marketFOK (pstr ("12345678901")) 10 .buy),
         [Effect.clientCreated (pstr ("ab")) none (some 0),
          Effect.orderPosted (.marketFOK (pstr ("12345678901")) 10 .buy)]) :=
  ⟨fun env req t₁ t₂ => rfl, by decide⟩
